import Mathlib

/-!
Verification of the snackify-backend service (src/server.js) against its
specification.  The server is a thin HTTP CRUD layer over two relational
tables (`users`, `snack_requests`).  We embed the datastore state and each
route handler as pure Lean functions, translated directly from the SQL
statements and JavaScript control flow of the handlers, and prove or refute
the specified properties.

Modelling conventions:
* timestamps are natural numbers (a monotone server clock carried in the
  state; each mutating handler call consumes the current instant and advances
  the clock);
* nullable SQL columns are `Option` values (`none` = SQL NULL);
* JavaScript values arriving in JSON bodies are modelled by `JSValue`, with
  the JS ToBoolean truthiness used by the `x ? 1 : 0` coercions;
* bcrypt hashing and comparison are abstract function parameters, since the
  handlers only pipe strings through them;
* a possibly failing INSERT (datastore error, unique-constraint race) is
  modelled by an explicit `insertFails` flag on registration, mirroring the
  `function (err) {...}` callback of `db.run`.
-/

namespace Snackify

/-- JavaScript values as they occur in parsed JSON request bodies.  A field
absent from the body reads as `undef` (JS `undefined`). -/
inductive JSValue where
  | undef : JSValue
  | null : JSValue
  | bool (b : Bool) : JSValue
  | num (n : Int) : JSValue
  | str (s : String) : JSValue
deriving DecidableEq

/-- JavaScript ToBoolean: `undefined`, `null`, `false`, `0` and `""` are
falsy, everything else truthy. -/
def truthy : JSValue → Bool
  | .undef => false
  | .null => false
  | .bool b => b
  | .num n => n != 0
  | .str s => s != ""

/-- The `req.body.x ? 1 : 0` coercion used by the order and keep handlers
(src/server.js lines 161 and 432). -/
def jsToBit (v : JSValue) : Nat :=
  if truthy v then 1 else 0

/-- A row of the `users` table (schema at src/server.js lines 21-29).
`role` is nullable: the INSERT binds the role value explicitly, and an
omitted body field is bound as SQL NULL. -/
structure UserRow where
  id : Nat
  username : String
  password : String
  role : Option String
  name : String
deriving DecidableEq

/-- A row of the `snack_requests` table (schema at src/server.js lines
32-45 and 270-283; the pg variant adds `keep_on_hand`). -/
structure SnackRow where
  id : Nat
  user_id : Option Nat
  snack : Option String
  drink : Option String
  misc : Option String
  link : Option String
  ordered_flag : Nat
  created_at : Option Nat
  ordered_at : Option Nat
  keep_on_hand : Nat
deriving DecidableEq

/-- The datastore state: both tables, the auto-increment counters, and the
server clock supplying `datetime("now")` / `CURRENT_TIMESTAMP`. -/
structure DB where
  users : List UserRow
  requests : List SnackRow
  nextUserId : Nat
  nextReqId : Nat
  now : Nat
deriving DecidableEq

/-- JSON response bodies produced by the handlers. -/
inductive Body where
  | msg (text : String) : Body
  | err (text : String) : Body
  | userRow (u : UserRow) : Body
  | registered (text : String) (userId : Option Nat) : Body
  | requestRows (rows : List (SnackRow × String)) : Body
deriving DecidableEq

/-- An HTTP response: status code plus JSON body. -/
structure Response where
  status : Nat
  body : Body
deriving DecidableEq

/-- POST /api/register (src/server.js lines 54-95).  Looks up the username;
if found responds 409 and stops.  Otherwise hashes the password and runs the
INSERT, whose callback responds 201 regardless of whether the INSERT
reported an error (the `res.status(201)` sits outside the `if (err)`
branch), with `this.lastID` absent on failure. -/
def registerApp (hash : String → String) (username pw : String)
    (role : Option String) (nm : String) (insertFails : Bool)
    (db : DB) : DB × Response :=
  match db.users.find? (fun u => u.username == username) with
  | some _ => (db, ⟨409, .err "Username already exists"⟩)
  | none =>
      let hashed := hash pw
      if insertFails then
        (db, ⟨201, .registered "User registered successfully" none⟩)
      else
        ({ db with
            users := db.users ++ [⟨db.nextUserId, username, hashed, role, nm⟩],
            nextUserId := db.nextUserId + 1 },
         ⟨201, .registered "User registered successfully" (some db.nextUserId)⟩)

/-- POST /api/login (src/server.js lines 190-216).  Unknown username and
failed password comparison take the same 401 branch with the same body. -/
def loginApp (compare : String → String → Bool) (username pw : String)
    (db : DB) : Response :=
  match db.users.find? (fun u => u.username == username) with
  | none => ⟨401, .err "Invalid username or password"⟩
  | some row =>
      if compare pw row.password then ⟨200, .userRow row⟩
      else ⟨401, .err "Invalid username or password"⟩

/-- POST /api/requests (src/server.js lines 128-156 / 394-412).  Inserts one
row with `created_at` set to the current server time, `ordered_at` NULL, and
`ordered_flag` / `keep_on_hand` at their defaults 0. -/
def submitRequestApp (user_id : Option Nat)
    (snack drink misc link : Option String) (db : DB) : DB × Response :=
  let newRow : SnackRow :=
    ⟨db.nextReqId, user_id, snack, drink, misc, link, 0, some db.now, none, 0⟩
  ({ db with
      requests := db.requests ++ [newRow],
      nextReqId := db.nextReqId + 1,
      now := db.now + 1 },
   ⟨201, .requestRows [(newRow, "")]⟩)

/-- PUT /api/requests/:id/order (src/server.js lines 159-172 / 415-428).
The SQL is `UPDATE snack_requests SET ordered_flag = ?, ordered_at =
datetime("now", "localtime") WHERE id = ?`: `ordered_at` is set to the
current timestamp for BOTH values of the flag, and the handler responds
success without inspecting how many rows were affected. -/
def markOrderedApp (id : Nat) (ordered : JSValue) (db : DB) : DB × Response :=
  let newOrderedStatus := jsToBit ordered
  ({ db with
      requests := db.requests.map fun r =>
        if r.id = id then
          { r with ordered_flag := newOrderedStatus, ordered_at := some db.now }
        else r,
      now := db.now + 1 },
   ⟨200, .msg "Snack request updated successfully"⟩)

/-- PUT /api/requests/:id/keep (src/server.js lines 430-442).  The SQL is
`UPDATE snack_requests SET keep_on_hand = ? WHERE id = ?`; success is
reported without an affected-row check. -/
def markKeepApp (id : Nat) (keep : JSValue) (db : DB) : DB × Response :=
  let keepOnHand := jsToBit keep
  ({ db with
      requests := db.requests.map fun r =>
        if r.id = id then { r with keep_on_hand := keepOnHand } else r,
      now := db.now + 1 },
   ⟨200, .msg "Snack request updated successfully"⟩)

/-- DELETE /api/requests/:id (src/server.js lines 174-185 / 445-456).
`DELETE FROM snack_requests WHERE id = ?`, then an unconditional success
message. -/
def deleteRequestApp (id : Nat) (db : DB) : DB × Response :=
  ({ db with
      requests := db.requests.filter fun r => !(r.id == id),
      now := db.now + 1 },
   ⟨200, .msg "Snack request deleted successfully"⟩)

/-- The effective sort key of the all-requests listing:
`CASE WHEN sr.ordered_flag = 1 THEN sr.ordered_at ELSE sr.created_at END`
(src/server.js lines 97-112). -/
def effKey (r : SnackRow) : Option Nat :=
  if r.ordered_flag = 1 then r.ordered_at else r.created_at

/-- Comparison of nullable timestamps as SQLite orders them: NULL sorts
below every value. -/
def keyLE : Option Nat → Option Nat → Bool
  | none, _ => true
  | some _, none => false
  | some a, some b => a ≤ b

/-- Row `a` may precede row `b` in the DESC listing when `a`'s effective key
is at least `b`'s. -/
def listingBefore (a b : SnackRow × String) : Prop :=
  keyLE (effKey b.1) (effKey a.1) = true

instance : DecidableRel listingBefore :=
  fun a b => inferInstanceAs (Decidable (_ = true))

/-- The JOIN of `snack_requests` with `users` on `user_id = id`, projecting
the user's name as `user_name`. -/
def joinRequests (db : DB) : List (SnackRow × String) :=
  db.requests.filterMap fun r =>
    match db.users.find? (fun u => r.user_id == some u.id) with
    | none => none
    | some u => some (r, u.name)

/-- GET /api/requests: the joined rows ordered descending by the effective
timestamp key. -/
def allRequestsListing (db : DB) : List (SnackRow × String) :=
  List.insertionSort listingBefore (joinRequests db)

/-- GET /api/requests response (src/server.js lines 97-112). -/
def getRequestsApp (db : DB) : Response :=
  ⟨200, .requestRows (allRequestsListing db)⟩

/-- GET /api/requests/user/:userId (src/server.js lines 114-125): the user's
rows ordered descending by `created_at` only. -/
def getUserRequestsApp (userId : Nat) (db : DB) : Response :=
  ⟨200, .requestRows
    ((List.insertionSort
        (fun a b => keyLE b.created_at a.created_at = true)
        (db.requests.filter fun r => r.user_id == some userId)).map
      (fun r => (r, "")))⟩

/-- The freshly initialized datastore: both tables created empty. -/
def initDB : DB := ⟨[], [], 1, 1, 0⟩

/-- Datastore states reachable from a fresh datastore through the exposed
mutating operations. -/
inductive Reachable : DB → Prop where
  | init : Reachable initDB
  | register (hash : String → String) (username pw : String)
      (role : Option String) (nm : String) (insertFails : Bool) {db : DB} :
      Reachable db →
      Reachable (registerApp hash username pw role nm insertFails db).1
  | submit (user_id : Option Nat) (snack drink misc link : Option String)
      {db : DB} : Reachable db →
      Reachable (submitRequestApp user_id snack drink misc link db).1
  | markOrdered (id : Nat) (v : JSValue) {db : DB} :
      Reachable db → Reachable (markOrderedApp id v db).1
  | markKeep (id : Nat) (v : JSValue) {db : DB} :
      Reachable db → Reachable (markKeepApp id v db).1
  | deleteReq (id : Nat) {db : DB} :
      Reachable db → Reachable (deleteRequestApp id db).1

/-- Number of `users` rows carrying a given username. -/
def usernameCount (db : DB) (u : String) : Nat :=
  db.users.countP (fun x => x.username == u)

/-- One-direction flag/timestamp invariant: a row marked ordered carries a
non-null `ordered_at`. -/
def flagTimestampInv (db : DB) : Prop :=
  ∀ r ∈ db.requests, r.ordered_flag = 1 → r.ordered_at.isSome = true

/-! ### Concrete fixtures used by counterexamples and witnesses -/

/-- A registered user row. -/
def aliceRow : UserRow := ⟨1, "alice", "h", some "user", "Alice"⟩

/-- A datastore holding one user and no snack requests. -/
def dbAlice : DB := ⟨[aliceRow], [], 2, 1, 0⟩

/-- A snack request row currently marked ordered (flag 1, `ordered_at` 5). -/
def exRow : SnackRow := ⟨1, some 1, some "chips", none, none, none, 1, some 3, some 5, 0⟩

/-- A second, unordered snack request row. -/
def exRow2 : SnackRow := ⟨2, some 1, some "cola", none, none, none, 0, some 4, none, 1⟩

/-- A datastore with one user and two snack request rows, server clock 9. -/
def exDB : DB := ⟨[aliceRow], [exRow, exRow2], 2, 3, 9⟩

/-- The state reached from a fresh datastore by submitting one request and
then marking it un-ordered. -/
def c2CexDB : DB :=
  (markOrderedApp 1 (JSValue.bool false)
    (submitRequestApp (some 1) none none none none initDB).1).1

/-- The state reached from a fresh datastore by submitting one request and
then marking it ordered. -/
def c2WitDB : DB :=
  (markOrderedApp 1 (JSValue.bool true)
    (submitRequestApp (some 1) none none none none initDB).1).1

/-- A datastore with one ordered row (effective key 10) and two unordered
rows (effective keys 5 and 3). -/
def c6Db : DB :=
  ⟨[aliceRow],
   [⟨1, some 1, some "chips", none, none, none, 1, some 1, some 10, 0⟩,
    ⟨2, some 1, some "cola", none, none, none, 0, some 5, none, 0⟩,
    ⟨3, some 1, some "bars", none, none, none, 0, some 3, none, 0⟩],
   2, 4, 11⟩

/-! ### Helper lemmas -/

theorem keyLE_refl (o : Option Nat) : keyLE o o = true := by
  cases o <;> simp [keyLE]

theorem keyLE_total (a b : Option Nat) : keyLE a b = true ∨ keyLE b a = true := by
  cases a <;> cases b <;> simp [keyLE] <;> omega

theorem keyLE_trans (a b c : Option Nat) (h1 : keyLE a b = true)
    (h2 : keyLE b c = true) : keyLE a c = true := by
  cases a <;> cases b <;> cases c <;> simp [keyLE] at * <;> omega

instance : IsTotal (SnackRow × String) listingBefore :=
  ⟨fun a b => keyLE_total (effKey b.1) (effKey a.1)⟩

instance : IsTrans (SnackRow × String) listingBefore :=
  ⟨fun _ _ _ h1 h2 => keyLE_trans _ _ _ h2 h1⟩

theorem registerApp_requests (hash : String → String) (username pw : String)
    (role : Option String) (nm : String) (insertFails : Bool) (db : DB) :
    (registerApp hash username pw role nm insertFails db).1.requests
      = db.requests := by
  unfold registerApp
  cases db.users.find? (fun u => u.username == username) with
  | some w => rfl
  | none => cases insertFails <;> rfl

theorem registerApp_fresh (hash : String → String) (username pw : String)
    (role : Option String) (nm : String) (db : DB)
    (hfree : db.users.find? (fun u => u.username == username) = none) :
    registerApp hash username pw role nm false db
      = ({ db with
            users := db.users ++ [⟨db.nextUserId, username, hash pw, role, nm⟩],
            nextUserId := db.nextUserId + 1 },
         ⟨201, .registered "User registered successfully" (some db.nextUserId)⟩) := by
  unfold registerApp
  rw [hfree]
  rfl

theorem registerApp_present (hash : String → String) (username pw : String)
    (role : Option String) (nm : String) (insertFails : Bool) (db : DB)
    (h : ∃ x ∈ db.users, x.username = username) :
    registerApp hash username pw role nm insertFails db
      = (db, ⟨409, .err "Username already exists"⟩) := by
  unfold registerApp
  cases hf : db.users.find? (fun u => u.username == username) with
  | none =>
      exfalso
      obtain ⟨x, hx, hxu⟩ := h
      have hnone := List.find?_eq_none.mp hf x hx
      simp [hxu] at hnone
  | some w => rfl

theorem mem_map_ite_pos {l : List SnackRow} {r : SnackRow} {id : Nat}
    (g : SnackRow → SnackRow) (hr : r ∈ l) (hid : r.id = id) :
    g r ∈ l.map (fun r0 => if r0.id = id then g r0 else r0) := by
  have h := List.mem_map_of_mem (fun r0 => if r0.id = id then g r0 else r0) hr
  simpa [hid] using h

theorem mem_map_ite_neg {l : List SnackRow} {r : SnackRow} {id : Nat}
    (g : SnackRow → SnackRow) (hr : r ∈ l) (hid : ¬ r.id = id) :
    r ∈ l.map (fun r0 => if r0.id = id then g r0 else r0) := by
  have h := List.mem_map_of_mem (fun r0 => if r0.id = id then g r0 else r0) hr
  simpa [hid] using h

/-! ### Claim C1 -/

/-- Claim C1 as stated is false: un-marking (ordered=false) the ordered row
of `exDB` does not set `ordered_at` back to null — after the call the row's
`ordered_at` is `some 9` (the current server time), because the UPDATE
statement writes `datetime("now")` into `ordered_at` unconditionally. -/
theorem markOrderedFalseKeepsTimestamp :
    ((markOrderedApp 1 (JSValue.bool false) exDB).1.requests.find?
        (fun r => r.id == 1)).map SnackRow.ordered_at ≠ some none := by
  decide

/-- Claim C1 (amended): invoking mark-ordered on an existing row with a
boolean body value sets `ordered_flag` to the value's integer form (1 for
true, 0 for false) and sets `ordered_at` to the current server timestamp in
BOTH cases — un-marking does not clear the timestamp to null. -/
theorem markOrderedSetsFlagAndTimestamp (db : DB) (id : Nat) (v : JSValue)
    (r : SnackRow) (hr : r ∈ db.requests) (hid : r.id = id) :
    { r with ordered_flag := jsToBit v, ordered_at := some db.now }
        ∈ (markOrderedApp id v db).1.requests ∧
    jsToBit (JSValue.bool true) = 1 ∧ jsToBit (JSValue.bool false) = 0 ∧
    (markOrderedApp id v db).2
        = ⟨200, Body.msg "Snack request updated successfully"⟩ := by
  refine ⟨?_, rfl, rfl, rfl⟩
  exact mem_map_ite_pos
    (fun r0 => { r0 with ordered_flag := jsToBit v, ordered_at := some db.now })
    hr hid

/-- Witness for the amended C1 theorem at a concrete datastore. -/
theorem markOrderedSetsFlagAndTimestamp_witness :
    { exRow with ordered_flag := jsToBit (JSValue.bool false), ordered_at := some 9 }
        ∈ (markOrderedApp 1 (JSValue.bool false) exDB).1.requests ∧
    jsToBit (JSValue.bool true) = 1 ∧ jsToBit (JSValue.bool false) = 0 ∧
    (markOrderedApp 1 (JSValue.bool false) exDB).2
        = ⟨200, Body.msg "Snack request updated successfully"⟩ :=
  markOrderedSetsFlagAndTimestamp exDB 1 (JSValue.bool false) exRow (by decide) rfl

/-! ### Claim C2 -/

/-- Claim C2 as stated is false: `c2CexDB` is reachable from a fresh
datastore (submit a request, then mark it un-ordered), yet it contains a
row with non-null `ordered_at` and `ordered_flag = 0`, breaking the
"non-null iff flag" invariant. -/
theorem flagTimestampIffFails :
    Reachable c2CexDB ∧
    c2CexDB.requests.any
      (fun r => !(r.ordered_at == none) && !(r.ordered_flag == 1)) = true :=
  ⟨Reachable.markOrdered 1 (JSValue.bool false)
      (Reachable.submit (some 1) none none none none Reachable.init),
   by decide⟩

/-- Claim C2 (amended): in every reachable datastore state, every snack
request row with `ordered_flag = 1` has a non-null `ordered_at`; only this
forward direction of the invariant is preserved by the exposed operations
(the converse fails, since un-marking leaves the timestamp in place). -/
theorem reachableFlagTimestampInv (db : DB) (h : Reachable db) :
    flagTimestampInv db := by
  induction h with
  | init =>
      intro r hr _
      simp [initDB] at hr
  | register hash username pw role nm insertFails a ih =>
      intro r hr hflag
      rw [registerApp_requests] at hr
      exact ih r hr hflag
  | submit user_id snack drink misc link a ih =>
      intro r hr hflag
      simp only [submitRequestApp, List.mem_append, List.mem_singleton] at hr
      rcases hr with hr | rfl
      · exact ih r hr hflag
      · simp at hflag
  | markOrdered id v a ih =>
      intro r hr hflag
      simp only [markOrderedApp, List.mem_map] at hr
      obtain ⟨r0, hr0, rfl⟩ := hr
      by_cases hid : r0.id = id
      · rw [if_pos hid]
        rfl
      · rw [if_neg hid] at hflag ⊢
        exact ih r0 hr0 hflag
  | markKeep id v a ih =>
      intro r hr hflag
      simp only [markKeepApp, List.mem_map] at hr
      obtain ⟨r0, hr0, rfl⟩ := hr
      by_cases hid : r0.id = id
      · rw [if_pos hid] at hflag ⊢
        exact ih r0 hr0 hflag
      · rw [if_neg hid] at hflag ⊢
        exact ih r0 hr0 hflag
  | deleteReq id a ih =>
      intro r hr hflag
      simp only [deleteRequestApp, List.mem_filter] at hr
      exact ih r hr.1 hflag

/-- Witness for the amended C2 theorem: the concrete ordered row of the
reachable state `c2WitDB` indeed carries a non-null `ordered_at`. -/
theorem reachableFlagTimestampInv_witness :
    (⟨1, some 1, none, none, none, none, 1, some 0, some 1, 0⟩
      : SnackRow).ordered_at.isSome = true :=
  reachableFlagTimestampInv c2WitDB
    (Reachable.markOrdered 1 (JSValue.bool true)
      (Reachable.submit (some 1) none none none none Reachable.init))
    ⟨1, some 1, none, none, none, none, 1, some 0, some 1, 0⟩ (by decide) (by decide)

/-! ### Claim C3 -/

/-- Claim C3 as stated is false: invoked with id 7, for which `dbAlice`
holds no snack request row, mark-ordered, mark-keep-on-hand and delete all
respond with a status other than 404, and a second delete of the same id
still does not respond 404 (they all respond 200). -/
theorem missingRowNot404 :
    (markOrderedApp 7 (JSValue.bool true) dbAlice).2.status ≠ 404 ∧
    (markKeepApp 7 (JSValue.bool true) dbAlice).2.status ≠ 404 ∧
    (deleteRequestApp 7 dbAlice).2.status ≠ 404 ∧
    (deleteRequestApp 7 (deleteRequestApp 7 dbAlice).1).2.status ≠ 404 := by
  decide

/-- Claim C3 (amended): the mark-ordered, mark-keep-on-hand and delete
handlers never inspect how many rows the statement affected: they respond
200 with a success message for every id, whether or not a matching row
exists, and deleting the same id twice responds success both times (the
first call does remove every row with that id). -/
theorem updateDeleteAlwaysSucceed (db : DB) (id : Nat) (v w : JSValue) :
    (markOrderedApp id v db).2
      = ⟨200, Body.msg "Snack request updated successfully"⟩ ∧
    (markKeepApp id w db).2
      = ⟨200, Body.msg "Snack request updated successfully"⟩ ∧
    (deleteRequestApp id db).2
      = ⟨200, Body.msg "Snack request deleted successfully"⟩ ∧
    (deleteRequestApp id (deleteRequestApp id db).1).2
      = ⟨200, Body.msg "Snack request deleted successfully"⟩ ∧
    (deleteRequestApp id db).1.requests.countP (fun r => r.id == id) = 0 := by
  refine ⟨rfl, rfl, rfl, rfl, ?_⟩
  refine List.countP_eq_zero.mpr ?_
  intro a ha
  have hmem := List.mem_filter.mp ha
  simpa using hmem.2

/-! ### Claim C4 -/

/-- Claim C4: the registration handler is evaluated at the failing input —
the username is free at check time but the INSERT itself fails (datastore
error, or the uniqueness race where a concurrent insert wins) — and the
insert callback still responds 201 "User registered successfully" instead
of the specified 500, because `res.status(201)` sits outside the
`if (err)` branch of the callback. -/
theorem registerInsertFailureResponds201 :
    (registerApp (fun s => s) "alice" "pw" none "Alice" true initDB).2
      = ⟨201, Body.registered "User registered successfully" none⟩ ∧
    (registerApp (fun s => s) "alice" "pw" none "Alice" true initDB).2.status ≠ 500 ∧
    (registerApp (fun s => s) "alice" "pw" none "Alice" true initDB).1.users = [] := by
  refine ⟨by decide, by decide, by decide⟩

/-! ### Claim C5 -/

/-- Claim C5: registering a username that is already present responds 409
"Username already exists" and leaves the datastore unchanged; registering
the same username twice from a state where it is free yields one 201 and
one 409, the second call changes nothing, and afterwards exactly one users
row carries that username. -/
theorem registerDuplicateConflict (hash : String → String)
    (u pw pw2 : String) (role role2 : Option String) (nm nm2 : String)
    (db db2 : DB)
    (hpresent : ∃ x ∈ db.users, x.username = u)
    (hfree : db2.users.find? (fun x => x.username == u) = none) :
    registerApp hash u pw role nm false db
      = (db, ⟨409, Body.err "Username already exists"⟩) ∧
    (registerApp hash u pw role nm false db2).2.status = 201 ∧
    registerApp hash u pw2 role2 nm2 false
        (registerApp hash u pw role nm false db2).1
      = ((registerApp hash u pw role nm false db2).1,
         ⟨409, Body.err "Username already exists"⟩) ∧
    usernameCount (registerApp hash u pw2 role2 nm2 false
        (registerApp hash u pw role nm false db2).1).1 u = 1 := by
  have hstep := registerApp_fresh hash u pw role nm db2 hfree
  have hcount0 : db2.users.countP (fun x => x.username == u) = 0 := by
    refine List.countP_eq_zero.mpr ?_
    intro x hx
    exact List.find?_eq_none.mp hfree x hx
  have hpresent2 : ∃ x ∈ (registerApp hash u pw role nm false db2).1.users,
      x.username = u := by
    rw [hstep]
    exact ⟨⟨db2.nextUserId, u, hash pw, role, nm⟩, by simp, rfl⟩
  have hsecond := registerApp_present hash u pw2 role2 nm2 false
    (registerApp hash u pw role nm false db2).1 hpresent2
  refine ⟨registerApp_present hash u pw role nm false db hpresent, ?_, hsecond, ?_⟩
  · rw [hstep]
  · rw [hsecond, hstep]
    simp [usernameCount, List.countP_append, List.countP_cons, hcount0]

/-- Witness for the C5 theorem at concrete datastores. -/
theorem registerDuplicateConflict_witness :
    registerApp (fun s => s) "alice" "pw" none "A" false dbAlice
      = (dbAlice, ⟨409, Body.err "Username already exists"⟩) ∧
    (registerApp (fun s => s) "alice" "pw" none "A" false initDB).2.status = 201 ∧
    registerApp (fun s => s) "alice" "pw2" (some "admin") "B" false
        (registerApp (fun s => s) "alice" "pw" none "A" false initDB).1
      = ((registerApp (fun s => s) "alice" "pw" none "A" false initDB).1,
         ⟨409, Body.err "Username already exists"⟩) ∧
    usernameCount (registerApp (fun s => s) "alice" "pw2" (some "admin") "B" false
        (registerApp (fun s => s) "alice" "pw" none "A" false initDB).1).1 "alice"
      = 1 :=
  registerDuplicateConflict (fun s => s) "alice" "pw" "pw2" none (some "admin")
    "A" "B" dbAlice initDB ⟨aliceRow, by decide, rfl⟩ rfl

/-! ### Claim C6 -/

/-- Claim C6: the all-requests listing is sorted descending by the single
effective timestamp key (`ordered_at` when `ordered_flag = 1`, otherwise
`created_at`): whenever the row at position `i` has a strictly greater
effective key than the row at position `j` (`keyLE _ _ = false` states that
`j`'s key is not ≥ `i`'s, i.e. `i`'s is strictly later, NULL sorting
lowest), position `i` comes strictly before position `j`.  In particular an
ordered request whose `ordered_at` is later than an unordered request's
`created_at` sorts before it, and of two unordered requests the one with
the later `created_at` sorts first. -/
theorem allRequestsSortedByEffectiveKey (db : DB)
    (i j : Fin (allRequestsListing db).length)
    (hkey : keyLE (effKey ((allRequestsListing db).get i).1)
              (effKey ((allRequestsListing db).get j).1) = false) :
    (i : Nat) < (j : Nat) := by
  have hs : (allRequestsListing db).Sorted listingBefore :=
    List.sorted_insertionSort listingBefore (joinRequests db)
  by_contra hn
  have hij : j ≤ i := Fin.le_def.mpr (Nat.le_of_not_lt hn)
  rcases eq_or_lt_of_le hij with heq | hlt
  · cases heq
    rw [keyLE_refl] at hkey
    cases hkey
  · have hrel := hs.rel_get_of_lt hlt
    unfold listingBefore at hrel
    rw [hrel] at hkey
    cases hkey

/-- Witness for the C6 theorem: in the listing of `c6Db` the ordered row
(effective key 10) sits strictly before the unordered row with created_at 5. -/
theorem allRequestsSortedByEffectiveKey_witness : (0 : Nat) < (1 : Nat) :=
  allRequestsSortedByEffectiveKey c6Db ⟨0, by decide⟩ ⟨1, by decide⟩ (by decide)

/-! ### Claim C7 -/

/-- Claim C7: a login with an unknown username and a login with an existing
username but failing password comparison produce the same response — 401
with the identical generic body "Invalid username or password" — so the
response does not reveal whether the username exists. -/
theorem loginUniformUnauthorized (compare : String → String → Bool) (db : DB)
    (u1 p1 u2 p2 : String) (row : UserRow)
    (h1 : db.users.find? (fun x => x.username == u1) = none)
    (h2 : db.users.find? (fun x => x.username == u2) = some row)
    (h3 : compare p2 row.password = false) :
    loginApp compare u1 p1 db = loginApp compare u2 p2 db ∧
    loginApp compare u1 p1 db = ⟨401, Body.err "Invalid username or password"⟩ := by
  have ha : loginApp compare u1 p1 db
      = ⟨401, Body.err "Invalid username or password"⟩ := by
    unfold loginApp
    rw [h1]
  have hb : loginApp compare u2 p2 db
      = ⟨401, Body.err "Invalid username or password"⟩ := by
    unfold loginApp
    rw [h2]
    simp [h3]
  exact ⟨ha.trans hb.symm, ha⟩

/-- Witness for the C7 theorem: unknown user "ghost" and wrong password for
the existing "alice" receive identical 401 responses. -/
theorem loginUniformUnauthorized_witness :
    loginApp (fun p h0 => p == h0) "ghost" "x" dbAlice
      = loginApp (fun p h0 => p == h0) "alice" "wrong" dbAlice ∧
    loginApp (fun p h0 => p == h0) "ghost" "x" dbAlice
      = ⟨401, Body.err "Invalid username or password"⟩ :=
  loginUniformUnauthorized (fun p h0 => p == h0) dbAlice "ghost" "x" "alice"
    "wrong" aliceRow (by decide) (by decide) (by decide)

/-! ### Claim C8 -/

/-- Claim C8 as stated is false: registering "bob" with the role field
omitted (bound as SQL NULL) creates a row whose role is NULL, not the
schema default "user", because the INSERT names the role column explicitly
so the column default never applies. -/
theorem omittedRoleNotDefaulted :
    ((registerApp (fun s => s) "bob" "pw" none "Bob" false initDB).1.users.find?
        (fun x => x.username == "bob")).map UserRow.role = some none ∧
    ((registerApp (fun s => s) "bob" "pw" none "Bob" false initDB).1.users.find?
        (fun x => x.username == "bob")).map UserRow.role ≠ some (some "user") := by
  refine ⟨by decide, by decide⟩

/-- Claim C8 (amended): the registration INSERT binds the role value
explicitly (`INSERT INTO users (username, password, role, name) VALUES
(?, ?, ?, ?)`), so a registration that omits the role field stores SQL NULL
in the role column — not the schema default "user": the created row is
appended with exactly the supplied values and its role is null. -/
theorem registerStoresBoundRole (hash : String → String) (u pw nm : String)
    (db : DB)
    (hfree : db.users.find? (fun x => x.username == u) = none) :
    (registerApp hash u pw none nm false db).1.users
      = db.users ++ [⟨db.nextUserId, u, hash pw, none, nm⟩] ∧
    (⟨db.nextUserId, u, hash pw, none, nm⟩ : UserRow).role ≠ some "user" := by
  refine ⟨?_, by simp⟩
  rw [registerApp_fresh hash u pw none nm db hfree]

/-- Witness for the amended C8 theorem at a concrete registration. -/
theorem registerStoresBoundRole_witness :
    (registerApp (fun s => s) "bob" "pw" none "Bob" false initDB).1.users
      = initDB.users ++ [⟨1, "bob", "pw", none, "Bob"⟩] ∧
    (⟨1, "bob", "pw", none, "Bob"⟩ : UserRow).role ≠ some "user" :=
  registerStoresBoundRole (fun s => s) "bob" "pw" "Bob" initDB rfl

/-! ### Claim C9 -/

/-- Claim C9: the mark-keep-on-hand operation on id changes only the
matching row's keep_on_hand field — the row with all other fields (id,
user_id, snack, drink, misc, link, ordered_flag, created_at, ordered_at)
unchanged is in the result — every row with a different id is present
unchanged, the users table is untouched, the number of rows is preserved,
and the response is the 200 success message. -/
theorem markKeepFrame (db : DB) (id : Nat) (v : JSValue) (r r2 : SnackRow)
    (hr : r ∈ db.requests) (hid : r.id = id)
    (hr2 : r2 ∈ db.requests) (hid2 : ¬ r2.id = id) :
    { r with keep_on_hand := jsToBit v } ∈ (markKeepApp id v db).1.requests ∧
    r2 ∈ (markKeepApp id v db).1.requests ∧
    (markKeepApp id v db).1.users = db.users ∧
    (markKeepApp id v db).1.requests.length = db.requests.length ∧
    (markKeepApp id v db).2
      = ⟨200, Body.msg "Snack request updated successfully"⟩ := by
  refine ⟨?_, ?_, rfl, ?_, rfl⟩
  · exact mem_map_ite_pos (fun r0 => { r0 with keep_on_hand := jsToBit v }) hr hid
  · exact mem_map_ite_neg (fun r0 => { r0 with keep_on_hand := jsToBit v }) hr2 hid2
  · simp [markKeepApp]

/-- Witness for the C9 theorem: marking row 1 of `exDB` keep-on-hand leaves
its ordered fields and the other row untouched. -/
theorem markKeepFrame_witness :
    { exRow with keep_on_hand := jsToBit (JSValue.bool true) }
        ∈ (markKeepApp 1 (JSValue.bool true) exDB).1.requests ∧
    exRow2 ∈ (markKeepApp 1 (JSValue.bool true) exDB).1.requests ∧
    (markKeepApp 1 (JSValue.bool true) exDB).1.users = exDB.users ∧
    (markKeepApp 1 (JSValue.bool true) exDB).1.requests.length
      = exDB.requests.length ∧
    (markKeepApp 1 (JSValue.bool true) exDB).2
      = ⟨200, Body.msg "Snack request updated successfully"⟩ :=
  markKeepFrame exDB 1 (JSValue.bool true) exRow exRow2
    (by decide) rfl (by decide) (by decide)

/-! ### Claim C10 -/

/-- Claim C10: the boolean body fields of mark-ordered and mark-keep are
coerced by JavaScript truthiness — every truthy value (including non-boolean
ones such as the non-empty string "yes") is stored as 1 and every falsy or
absent value (undefined) as 0 — and a PUT whose body lacks the field
silently un-marks the matching row (flag stored 0) while still responding
200 rather than rejecting the request. -/
theorem truthinessCoercion (db : DB) (id : Nat) (r : SnackRow)
    (hr : r ∈ db.requests) (hid : r.id = id) (v w : JSValue)
    (hv : truthy v = true) (hw : truthy w = false) :
    jsToBit v = 1 ∧ jsToBit w = 0 ∧
    jsToBit (JSValue.str "yes") = 1 ∧ jsToBit JSValue.undef = 0 ∧
    { r with ordered_flag := 0, ordered_at := some db.now }
        ∈ (markOrderedApp id JSValue.undef db).1.requests ∧
    (markOrderedApp id JSValue.undef db).2.status = 200 ∧
    { r with keep_on_hand := 0 } ∈ (markKeepApp id JSValue.undef db).1.requests ∧
    (markKeepApp id JSValue.undef db).2.status = 200 := by
  refine ⟨by simp [jsToBit, hv], by simp [jsToBit, hw], by decide, by decide,
    ?_, rfl, ?_, rfl⟩
  · exact mem_map_ite_pos
      (fun r0 => { r0 with ordered_flag := jsToBit JSValue.undef, ordered_at := some db.now })
      hr hid
  · exact mem_map_ite_pos
      (fun r0 => { r0 with keep_on_hand := jsToBit JSValue.undef }) hr hid

/-- Witness for the C10 theorem: a PUT on row 1 of `exDB` with the body
field absent stores 0 and responds 200. -/
theorem truthinessCoercion_witness :
    jsToBit (JSValue.num 7) = 1 ∧ jsToBit (JSValue.str "") = 0 ∧
    jsToBit (JSValue.str "yes") = 1 ∧ jsToBit JSValue.undef = 0 ∧
    { exRow with ordered_flag := 0, ordered_at := some 9 }
        ∈ (markOrderedApp 1 JSValue.undef exDB).1.requests ∧
    (markOrderedApp 1 JSValue.undef exDB).2.status = 200 ∧
    { exRow with keep_on_hand := 0 }
        ∈ (markKeepApp 1 JSValue.undef exDB).1.requests ∧
    (markKeepApp 1 JSValue.undef exDB).2.status = 200 :=
  truthinessCoercion exDB 1 exRow (by decide) rfl (JSValue.num 7)
    (JSValue.str "") (by decide) (by decide)

end Snackify
